import Mathlib

/-!
Verification model of the canvas-font-metrics library.

The JavaScript source is embedded shallowly: canvas text-measurement values
become an explicit value type (`JSVal`), the drawing surface becomes a
function from probed strings to raw measurements, the font-loading signal
becomes an oracle returning `Except`, and the process-wide mutable state
(instance cache, backup-face registry, style elements) becomes an explicit
`World` record threaded through the operations.  JavaScript strings are
modelled as lists of UTF-16 code units so that every code point probed by
the glyph scan (including lone surrogates) is representable.
-/

namespace CFM

/-- A JavaScript numeric measurement value as produced by the canvas
measurement API: an exact number (floats are modelled as rationals),
NaN, or undefined (a field absent from the measurement result). -/
inductive JSVal where
  | num (q : ℚ)
  | nan
  | undef
deriving DecidableEq

/-- JavaScript truthiness of a measurement value: the number 0, NaN and
undefined are falsy; every other number is truthy. -/
def truthy : JSVal → Bool
  | JSVal.num q => decide (q ≠ 0)
  | JSVal.nan => false
  | JSVal.undef => false

/-- JavaScript division of a measurement value by a font size.  Dividing
NaN or undefined by a number yields NaN.  The font size is a positive
number per the Options contract, so the zero-divisor float behaviour is
out of scope. -/
def jsDiv : JSVal → ℚ → JSVal
  | JSVal.num q, s => JSVal.num (q / s)
  | JSVal.nan, _ => JSVal.nan
  | JSVal.undef, _ => JSVal.nan

/-- JavaScript comparison `v > b` of a measurement value against a numeric
bound: comparisons against NaN or undefined are false. -/
def jsGT : JSVal → ℚ → Bool
  | JSVal.num q, b => decide (b < q)
  | JSVal.nan, _ => false
  | JSVal.undef, _ => false

/-- A JavaScript string, as a list of UTF-16 code units.  This keeps
`String.fromCharCode` injective on the whole 16-bit range, including the
lone surrogates probed by the glyph scan. -/
abbrev JString := List Nat

/-- Model of `String.fromCharCode(i)`: a one-unit string holding the code
unit `i` truncated to 16 bits. -/
def fromCharCode (i : Nat) : JString := [i % 65536]

/-- The raw result of `ctx.measureText(string)` on the drawing surface:
the fields read by the library. -/
structure TextMeasurement where
  width : JSVal
  actualBoundingBoxAscent : JSVal
  actualBoundingBoxDescent : JSVal
deriving DecidableEq

/-- A configured drawing surface, abstracted as the external measurement
capability: each probed string has a fixed raw measurement. -/
abbrev Surface := JString → TextMeasurement

/-- Enumeration of the fields of a raw measurement result, in the order a
`for-in` loop visits them. -/
def measurementEntries (m : TextMeasurement) : List (String × JSVal) :=
  [("width", m.width),
   ("actualBoundingBoxAscent", m.actualBoundingBoxAscent),
   ("actualBoundingBoxDescent", m.actualBoundingBoxDescent)]

/-- Source `normalize(ctx, measurements, fontSize)`: each truthy field is
divided by the font size, each falsy field passes through unchanged.
The `ctx` parameter is unused in the source as well. -/
def normalize (_ctx : Surface) (measurements : List (String × JSVal)) (fontSize : ℚ) :
    List (String × JSVal) :=
  measurements.map (fun p => (p.1, if truthy p.2 then jsDiv p.2 fontSize else p.2))

/-- Source `measureTop(ctx, string, fontSize)`: the ascent bound of the
bounding box divided by the font size, unconditionally. -/
def measureTop (ctx : Surface) (string : JString) (fontSize : ℚ) : JSVal :=
  jsDiv (ctx string).actualBoundingBoxAscent fontSize

/-- Source `measureBottom(ctx, string, fontSize)`: the descent bound of the
bounding box divided by the font size, unconditionally. -/
def measureBottom (ctx : Surface) (string : JString) (fontSize : ℚ) : JSVal :=
  jsDiv (ctx string).actualBoundingBoxDescent fontSize

/-- Source constant `ligatureCodes`, with the declaration order of its keys
(the order a `for-in` loop visits them). -/
def ligatureCodes : List (String × Nat) :=
  [("ff", 64256), ("fi", 64257), ("fl", 64258), ("st", 64262)]

/-- Source `detectLigatures(ctx)`: the names of the known ligatures whose
single probe character measures with width greater than zero, visited in
declaration order. -/
def detectLigatures (ctx : Surface) : List String :=
  (ligatureCodes.filter (fun p => jsGT (ctx (fromCharCode p.2)).width 0)).map Prod.fst

/-- Source `detectGlyphs(ctx)`: for every code point 0 to 65535 inclusive,
the one-character string is kept when its measured width is greater than
zero, in ascending code-point order. -/
def detectGlyphs (ctx : Surface) : List JString :=
  ((List.range 65536).filter (fun i => jsGT (ctx (fromCharCode i)).width 0)).map fromCharCode

/-- The per-instance width cache: the `widths` object plus a count of how
many times the underlying surface measurement has been invoked. -/
structure WidthState where
  widths : List (JString × JSVal)
  calls : Nat
deriving DecidableEq

/-- Property read `widths[string]` on the cache object: undefined when the
key is absent. -/
def lookupWidth : List (JString × JSVal) → JString → JSVal
  | [], _ => JSVal.undef
  | (k, v) :: rest, s => if k = s then v else lookupWidth rest s

/-- The `measureWidth` closure of the facade: when the cached value for the
string is falsy (absent, or a stored zero), the width is measured, divided
by the font size and stored; the (possibly new) stored value is returned.
The invocation counter models how often `ctx.measureText` runs. -/
def measureWidth (ctx : Surface) (fontSize : ℚ) (string : JString) (st : WidthState) :
    JSVal × WidthState :=
  let cached := lookupWidth st.widths string
  if truthy cached then (cached, st)
  else
    let v := jsDiv (ctx string).width fontSize
    (v, { widths := (string, v) :: st.widths, calls := st.calls + 1 })

/-- The `measureText` closure of the facade: the raw measurement result for
the string, normalized field by field. -/
def metricsMeasureText (ctx : Surface) (fontSize : ℚ) (string : JString) :
    List (String × JSVal) :=
  normalize ctx (measurementEntries (ctx string)) fontSize

/-- The constructed, cached metrics value: the six eagerly measured anchor
metrics and the detected ligatures.  The `ref` field models JavaScript
object reference identity (a fresh allocation number per constructed
object); the on-demand closures of the facade are modelled by the
standalone functions above, bound to the private surface. -/
structure Metrics where
  ref : Nat
  capHeight : JSVal
  baseline : JSVal
  xHeight : JSVal
  descent : JSVal
  ascent : JSVal
  tittle : JSVal
  ligatures : List String
deriving DecidableEq

/-- The process-wide mutable state of the module: the `instances` cache,
the `insertedBlankFonts` registry, the number of style elements appended to
the document head, plus an allocation counter for object identity and a
count of completed Probe Measurement Engine runs. -/
structure World where
  instances : List (String × Metrics)
  insertedBlankFonts : List String
  styleEls : Nat
  nextRef : Nat
  constructions : Nat
deriving DecidableEq

/-- The initial state of a fresh page: empty caches, nothing inserted. -/
def emptyWorld : World :=
  { instances := [], insertedBlankFonts := [], styleEls := 0, nextRef := 0, constructions := 0 }

/-- Property read `instances[id]`: JavaScript assignment overwrites, so
entries are prepended and lookup takes the first match. -/
def lookupInst : List (String × Metrics) → String → Option Metrics
  | [], _ => none
  | (k, m) :: rest, id => if k = id then some m else lookupInst rest id

/-- Model of `Array.prototype.indexOf`: the index of the first occurrence,
or -1 when absent. -/
def jsIndexOfAux : List String → String → Int → Int
  | [], _, _ => -1
  | x :: xs, y, i => if x = y then i else jsIndexOfAux xs y (i + 1)

/-- Array `indexOf` starting from index 0. -/
def jsIndexOf (xs : List String) (y : String) : Int := jsIndexOfAux xs y 0

/-- The `.length` property read on a JavaScript Number: numbers have no
such property, so the read yields undefined. -/
def numberLength (_n : Int) : JSVal := JSVal.undef

/-- Source `insertblankFont(weight, style)`: the guard is the literal
source expression `insertedBlankFonts.indexOf(id).length > -1`; since the
`.length` read on the number returned by `indexOf` is undefined, and a
comparison against undefined is false, the guard never fires and the
function appends a style element and a registry entry on every call. -/
def insertblankFont (weight style : String) (w : World) : World :=
  let id := weight ++ style
  if jsGT (numberLength (jsIndexOf w.insertedBlankFonts id)) (-1) then w
  else
    { w with
      styleEls := w.styleEls + 1,
      insertedBlankFonts := w.insertedBlankFonts ++ [id] }

/-- The anchor-character portion of an options object; an absent field
models a key missing from the caller-supplied object literal. -/
structure CharsObj where
  capHeight : Option JString := none
  baseline : Option JString := none
  xHeight : Option JString := none
  descent : Option JString := none
  ascent : Option JString := none
  tittle : Option JString := none
deriving DecidableEq

/-- An options object; an absent field models a key missing from the
object literal.  The `baseline` field is a surface baseline-mode name. -/
structure OptionsObj where
  chars : Option CharsObj := none
  fontSize : Option ℚ := none
  baseline : Option String := none
deriving DecidableEq

/-- Source `defaultOptions.chars`: the default anchor characters
S, n, x, p, h, i as one-unit strings. -/
def defaultChars : CharsObj :=
  { capHeight := some [83], baseline := some [110], xHeight := some [120],
    descent := some [112], ascent := some [104], tittle := some [105] }

/-- Source constant `defaultOptions`. -/
def defaultOptions : OptionsObj :=
  { chars := some defaultChars, fontSize := some 16, baseline := some "top" }

/-- Key override of a JavaScript object spread: a key present in the
spread-over object replaces the one in the accumulator. -/
def keyOverride {α : Type} (base over : Option α) : Option α :=
  match over with
  | some v => some v
  | none => base

/-- One level of object spread over the chars object: spreading an absent
value adds no keys; spreading an object overrides the keys it carries. -/
def charsSpread (base : CharsObj) (over : Option CharsObj) : CharsObj :=
  match over with
  | none => base
  | some o =>
    { capHeight := keyOverride base.capHeight o.capHeight,
      baseline := keyOverride base.baseline o.baseline,
      xHeight := keyOverride base.xHeight o.xHeight,
      descent := keyOverride base.descent o.descent,
      ascent := keyOverride base.ascent o.ascent,
      tittle := keyOverride base.tittle o.tittle }

/-- Spread of one options object over another at the outer key level. -/
def spreadObj (base over : OptionsObj) : OptionsObj :=
  { chars := keyOverride base.chars over.chars,
    fontSize := keyOverride base.fontSize over.fontSize,
    baseline := keyOverride base.baseline over.baseline }

/-- The merged-options object literal from the constructor, key by key in
source order: the first key computes the one-level chars merge, then
spreading `defaultOptions` overwrites that key with the default chars, then
spreading the caller options overwrites every key the caller supplied. -/
def mergedOptions (options : OptionsObj) : OptionsObj :=
  spreadObj
    (spreadObj
      { chars := some (charsSpread defaultChars options.chars),
        fontSize := none, baseline := none }
      defaultOptions)
    options

/-- Modelled from the spec: the documented merge of caller options over the
defaults — per-field override one level deep for `chars`, shallow override
for every other field.  Stated only to compare against `mergedOptions`,
which is translated from the source. -/
def specMergedOptions (options : OptionsObj) : OptionsObj :=
  { chars := some (charsSpread defaultChars options.chars),
    fontSize := keyOverride defaultOptions.fontSize options.fontSize,
    baseline := keyOverride defaultOptions.baseline options.baseline }

/-- A font weight as supplied by the caller: a JavaScript number or
string. -/
inductive FontWeight where
  | numW (n : Nat)
  | strW (s : String)
deriving DecidableEq

/-- Template-literal coercion of a font weight to a string. -/
def weightStr : FontWeight → String
  | FontWeight.numW n => toString n
  | FontWeight.strW s => s

/-- The caller-supplied `options` argument: omitted (undefined), the null
literal, or an object. -/
inductive OptVal where
  | undef
  | null
  | obj (o : OptionsObj)
deriving DecidableEq

/-- The argument object of the factory; `none` on a field models an
omitted key, to which the parameter default applies. -/
structure Args where
  fontFamily : String
  fontWeight : Option FontWeight := none
  fontStyle : Option String := none
  options : OptVal := OptVal.undef

/-- The destructured parameters after JavaScript default binding: the
defaults 400, normal and the empty object substitute only for undefined
(omitted) arguments — the null literal is passed through. -/
structure Settings where
  fontFamily : String
  fontWeight : FontWeight
  fontStyle : String
  options : OptVal
deriving DecidableEq

/-- Parameter-default resolution of the factory argument object. -/
def resolve (a : Args) : Settings :=
  { fontFamily := a.fontFamily,
    fontWeight := a.fontWeight.getD (FontWeight.numW 400),
    fontStyle := a.fontStyle.getD "normal",
    options :=
      match a.options with
      | OptVal.undef => OptVal.obj {}
      | v => v }

/-- JSON rendering of a JavaScript string: valid scalar code units decode
to the obvious character, any other unit is rendered as an escape.  The
rendering is injective on the strings callers supply as anchor
characters. -/
def quoteJStr (s : JString) : String :=
  "\"" ++ String.join (s.map (fun u =>
    if _h : u.isValidChar then String.singleton (Char.ofNat u)
    else "\\u" ++ toString u)) ++ "\""

/-- The present key-value pairs of an object, rendered for JSON. -/
def jsonFields (l : List (String × Option String)) : List String :=
  l.foldr
    (fun p acc =>
      match p.2 with
      | some v => ("\"" ++ p.1 ++ "\":" ++ v) :: acc
      | none => acc)
    []

/-- JSON.stringify of a chars object, keys in declaration order. -/
def stringifyChars (c : CharsObj) : String :=
  "\x7b" ++ String.intercalate ","
    (jsonFields
      [("capHeight", c.capHeight.map quoteJStr),
       ("baseline", c.baseline.map quoteJStr),
       ("xHeight", c.xHeight.map quoteJStr),
       ("descent", c.descent.map quoteJStr),
       ("ascent", c.ascent.map quoteJStr),
       ("tittle", c.tittle.map quoteJStr)]) ++ "\x7d"

/-- JSON.stringify of an options object, keys in declaration order. -/
def stringifyOptions (o : OptionsObj) : String :=
  "\x7b" ++ String.intercalate ","
    (jsonFields
      [("chars", o.chars.map stringifyChars),
       ("fontSize", o.fontSize.map toString),
       ("baseline", o.baseline.map (fun b => "\"" ++ b ++ "\""))]) ++ "\x7d"

/-- JSON.stringify of the resolved options argument: the null literal
serializes to the string null. -/
def stringifyOpt : OptVal → String
  | OptVal.undef => "undefined"
  | OptVal.null => "null"
  | OptVal.obj o => stringifyOptions o

/-- Source `getId(settings)`: the unseparated template-literal
concatenation of family, weight, style and the serialized options. -/
def getId (s : Settings) : String :=
  s.fontFamily ++ weightStr s.fontWeight ++ s.fontStyle ++ stringifyOpt s.options

/-- Source constant `blankFontFamily`. -/
def blankFontFamily : String := "AdobeBlank"

/-- The font specification string assigned by `setFont`: weight, style,
size, requested family, then the backup family as fallback. -/
def setFontSpec (fontFamily : String) (fontWeight : FontWeight) (fontStyle : String)
    (fontSize : ℚ) : String :=
  weightStr fontWeight ++ " " ++ fontStyle ++ " " ++ toString fontSize ++ "px "
    ++ fontFamily ++ ", " ++ blankFontFamily

/-- The ambient rendering capability: a freshly created canvas context,
configured with a font specification string, behaves as a fixed
measurement surface. -/
abbrev Render := String → Surface

/-- The font-loading signal: `FontFaceObserver(family, opts).load()`
either resolves or rejects with a load error or timeout message. -/
abbrev Ready := String → FontWeight → String → Except String Unit

/-- The error outcomes of the asynchronous factory. -/
inductive JsErr where
  | fontLoad (e : String)
  | typeError
deriving DecidableEq

/-- String coercion applied by `measureText` to an undefined anchor
character: undefined coerces to the eight-character string undefined. -/
def charArg : Option JString → JString
  | some s => s
  | none => [117, 110, 100, 101, 102, 105, 110, 101, 100]

/-- The options-merge step of the constructor.  Its first action reads the
`chars` property of the options argument, which throws a TypeError when
the argument is the null literal (or undefined). -/
def mergeStep : OptVal → Except JsErr OptionsObj
  | OptVal.obj o => Except.ok (mergedOptions o)
  | _ => Except.error JsErr.typeError

/-- The synchronous tail of construction after both readiness waits: merge
already done, create and configure a private canvas, run the Probe
Measurement Engine eagerly for the six anchor metrics and the ligatures,
assemble the facade, store it in the cache and return it.  Every key of
the merged options is present (the `defaultOptions` spread supplies them
all), so the `getD` defaults never apply. -/
def buildMetrics (render : Render) (s : Settings) (merged : OptionsObj) (id : String)
    (w : World) : Except JsErr Metrics × World :=
  let fontSize := merged.fontSize.getD 16
  let chars := merged.chars.getD defaultChars
  let ctx := render (setFontSpec s.fontFamily s.fontWeight s.fontStyle fontSize)
  let metrics : Metrics :=
    { ref := w.nextRef,
      capHeight := measureTop ctx (charArg chars.capHeight) fontSize,
      baseline := measureBottom ctx (charArg chars.baseline) fontSize,
      xHeight := measureTop ctx (charArg chars.xHeight) fontSize,
      descent := measureBottom ctx (charArg chars.descent) fontSize,
      ascent := measureTop ctx (charArg chars.ascent) fontSize,
      tittle := measureTop ctx (charArg chars.tittle) fontSize,
      ligatures := detectLigatures ctx }
  (Except.ok metrics,
   { w with
     nextRef := w.nextRef + 1,
     constructions := w.constructions + 1,
     instances := (id, metrics) :: w.instances })

/-- The outcome of running the factory up to its first await: either a
synchronous return of a cached instance, or a pending construction
suspended on the readiness waits. -/
inductive P1Out where
  | cached (m : Metrics)
  | pending (s : Settings) (id : String)
deriving DecidableEq

/-- The synchronous prefix of the factory body: compute the identity key,
return any cached instance, otherwise insert the backup face and suspend.
No in-flight placeholder is stored in the cache before suspending. -/
def phase1 (s : Settings) (w : World) : P1Out × World :=
  let id := getId s
  match lookupInst w.instances id with
  | some m => (P1Out.cached m, w)
  | none => (P1Out.pending s id, insertblankFont (weightStr s.fontWeight) s.fontStyle w)

/-- The remainder of the factory body after the suspension point: the two
readiness waits (each failure rejects the factory with the load error
verbatim), then the options merge (which can throw a TypeError), then the
construction tail. -/
def afterWaits (render : Render) (ready : Ready) (s : Settings) (id : String) (w : World) :
    Except JsErr Metrics × World :=
  match ready s.fontFamily s.fontWeight s.fontStyle with
  | Except.error e => (Except.error (JsErr.fontLoad e), w)
  | Except.ok _ =>
    match ready blankFontFamily s.fontWeight s.fontStyle with
    | Except.error e => (Except.error (JsErr.fontLoad e), w)
    | Except.ok _ =>
      match mergeStep s.options with
      | Except.error e => (Except.error e, w)
      | Except.ok merged => buildMetrics render s merged id w

/-- Resumption of one factory call from its phase-one outcome, in whatever
world holds when the event loop schedules it. -/
def resume (render : Render) (ready : Ready) : P1Out → World → Except JsErr Metrics × World
  | P1Out.cached m, w => (Except.ok m, w)
  | P1Out.pending s id, w => afterWaits render ready s id w

/-- Source `CanvasFontMetrics(settings)` run to completion with no
interleaved request: parameter-default resolution, the synchronous prefix,
then resumption in the world the prefix produced. -/
def CanvasFontMetrics (render : Render) (ready : Ready) (a : Args) (w : World) :
    Except JsErr Metrics × World :=
  let p := phase1 (resolve a) w
  resume render ready p.1 p.2

/-! Concrete fixtures used by witnesses and counterexamples. -/

/-- A surface on which every probe measures zero in every field. -/
def zeroWidthCtx : Surface := fun _ =>
  { width := JSVal.num 0, actualBoundingBoxAscent := JSVal.num 0,
    actualBoundingBoxDescent := JSVal.num 0 }

/-- A rendering capability on which every configured context is the
all-zero surface. -/
def constRender : Render := fun _ => zeroWidthCtx

/-- A font-loading signal on which every font is immediately ready. -/
def readyOk : Ready := fun _ _ _ => Except.ok ()

/-- A font-loading signal on which every wait fails with a timeout. -/
def readyFail : Ready := fun _ _ _ => Except.error "FontLoadTimeout"

/-- A factory argument object with every optional field omitted. -/
def raceArgs : Args := { fontFamily := "Arial" }

/-- A surface whose ascent bound is undefined (an unsupported probe glyph
on a measurement result lacking the field) and whose descent bound is
zero. -/
def undefAscentCtx : Surface := fun _ =>
  { width := JSVal.num 1, actualBoundingBoxAscent := JSVal.undef,
    actualBoundingBoxDescent := JSVal.num 0 }

/-- A surface on which every probe renders sixteen units wide. -/
def oneCtx : Surface := fun _ =>
  { width := JSVal.num 16, actualBoundingBoxAscent := JSVal.num 12,
    actualBoundingBoxDescent := JSVal.num 4 }

/-- A surface on which exactly the fi and st ligature probe characters
render with positive width. -/
def fiStCtx : Surface := fun s =>
  if s = [64257] ∨ s = [64262] then
    { width := JSVal.num 1, actualBoundingBoxAscent := JSVal.num 1,
      actualBoundingBoxDescent := JSVal.num 0 }
  else
    { width := JSVal.num 0, actualBoundingBoxAscent := JSVal.num 0,
      actualBoundingBoxDescent := JSVal.num 0 }

/-- A caller chars object supplying only the capHeight anchor. -/
def callerChars : CharsObj := { capHeight := some [88] }

/-- A caller options object supplying only a partial chars object. -/
def callerOptions : OptionsObj := { chars := some callerChars }

/-- The first colliding identity: family Arial4, weight the string 00. -/
def identityA : Settings :=
  { fontFamily := "Arial4", fontWeight := FontWeight.strW "00", fontStyle := "normal",
    options := OptVal.obj {} }

/-- The second colliding identity: family Arial, weight the string 400. -/
def identityB : Settings :=
  { fontFamily := "Arial", fontWeight := FontWeight.strW "400", fontStyle := "normal",
    options := OptVal.obj {} }

/-- The argument object resolving to the second colliding identity. -/
def argsB : Args :=
  { fontFamily := "Arial", fontWeight := some (FontWeight.strW "400"),
    fontStyle := some "normal", options := OptVal.obj {} }

/-- A fixed metrics value used to populate a cache for witnesses. -/
def dummyMetrics : Metrics :=
  { ref := 0, capHeight := JSVal.num 0, baseline := JSVal.num 0, xHeight := JSVal.num 0,
    descent := JSVal.num 0, ascent := JSVal.num 0, tittle := JSVal.num 0, ligatures := [] }

/-- A world whose cache already holds an instance under the key of the
first colliding identity. -/
def cachedWorld : World :=
  { emptyWorld with instances := [(getId identityA, dummyMetrics)] }

/-- Factory arguments with the options argument explicitly null. -/
def nullArgs (fam : String) : Args := { fontFamily := fam, options := OptVal.null }

/-- Factory arguments with the options argument omitted. -/
def undefArgs (fam : String) : Args := { fontFamily := fam }

/-! Helper lemmas. -/

/-- fromCharCode is the identity one-unit string on the 16-bit range. -/
theorem fromCharCode_small {i : Nat} (h : i < 65536) : fromCharCode i = [i] := by
  simp [fromCharCode, Nat.mod_eq_of_lt h]

/-- A cache hit returns the stored instance synchronously and leaves the
world untouched. -/
theorem cacheHit (render : Render) (ready : Ready) (a : Args) (w : World) (m : Metrics)
    (h : lookupInst w.instances (getId (resolve a)) = some m) :
    CanvasFontMetrics render ready a w = (Except.ok m, w) := by
  simp [CanvasFontMetrics, phase1, h, resume]

/-- A successful construction on a cache miss stores the returned instance
under the identity key and performs exactly one engine run. -/
theorem successShape (render : Render) (ready : Ready) (a : Args) (w : World) (m : Metrics)
    (hmiss : lookupInst w.instances (getId (resolve a)) = none)
    (hm : (CanvasFontMetrics render ready a w).1 = Except.ok m) :
    lookupInst ((CanvasFontMetrics render ready a w).2).instances (getId (resolve a)) = some m
    ∧ ((CanvasFontMetrics render ready a w).2).constructions = w.constructions + 1 := by
  cases hr1 : ready (resolve a).fontFamily (resolve a).fontWeight (resolve a).fontStyle with
  | error e =>
    simp [CanvasFontMetrics, phase1, hmiss, resume, afterWaits, hr1] at hm
  | ok u =>
    cases hr2 : ready blankFontFamily (resolve a).fontWeight (resolve a).fontStyle with
    | error e =>
      simp [CanvasFontMetrics, phase1, hmiss, resume, afterWaits, hr1, hr2] at hm
    | ok u2 =>
      cases hopt : (resolve a).options with
      | undef =>
        simp [CanvasFontMetrics, phase1, hmiss, resume, afterWaits, hr1, hr2, hopt,
          mergeStep] at hm
      | null =>
        simp [CanvasFontMetrics, phase1, hmiss, resume, afterWaits, hr1, hr2, hopt,
          mergeStep] at hm
      | obj o =>
        have hm' := hm
        simp [CanvasFontMetrics, phase1, hmiss, resume, afterWaits, hr1, hr2, hopt, mergeStep,
          buildMetrics] at hm'
        simp [CanvasFontMetrics, phase1, hmiss, resume, afterWaits, hr1, hr2, hopt, mergeStep,
          buildMetrics, lookupInst, insertblankFont, numberLength, jsGT, ← hm']

/-! Claim theorems. -/

/-- Claim C1, counterexample.  Two factory calls for the same identity are
interleaved across the suspension point: both run their synchronous
prefixes before either resumes (the second request arrives while the
first awaits font readiness).  The cache holds no in-flight placeholder,
so both calls miss the cache, the Probe Measurement Engine runs twice,
and the two callers receive distinct instances — refuting the claimed
at-most-one-construction-ever guarantee under concurrent requests. -/
theorem factory_concurrent_duplicate_construction :
    (resume constRender readyOk
      (phase1 (resolve raceArgs) (phase1 (resolve raceArgs) emptyWorld).2).1
      (resume constRender readyOk
        (phase1 (resolve raceArgs) emptyWorld).1
        (phase1 (resolve raceArgs) (phase1 (resolve raceArgs) emptyWorld).2).2).2).2.constructions
      = 2
    ∧ ∃ m1 m2 : Metrics,
        (resume constRender readyOk
          (phase1 (resolve raceArgs) emptyWorld).1
          (phase1 (resolve raceArgs) (phase1 (resolve raceArgs) emptyWorld).2).2).1
          = Except.ok m1
        ∧ (resume constRender readyOk
            (phase1 (resolve raceArgs) (phase1 (resolve raceArgs) emptyWorld).2).1
            (resume constRender readyOk
              (phase1 (resolve raceArgs) emptyWorld).1
              (phase1 (resolve raceArgs) (phase1 (resolve raceArgs) emptyWorld).2).2).2).1
            = Except.ok m2
        ∧ m1.ref ≠ m2.ref := by
  exact ⟨rfl, _, _, rfl, rfl, by decide⟩

/-- Claim C1, amended: for sequential requests the cache is idempotent — a
completed first call for an identity stores its instance, a second call
for the same identity returns the identical pair (same instance, world
unchanged) without a further engine run, and the first call ran the
engine exactly once.  The concurrent-dedup half of the claim is false,
see the counterexample. -/
theorem factory_sequential_cache_idempotent
    (render : Render) (ready : Ready) (a : Args) (w : World)
    (hmiss : lookupInst w.instances (getId (resolve a)) = none)
    (hok : ∃ m, (CanvasFontMetrics render ready a w).1 = Except.ok m) :
    CanvasFontMetrics render ready a ((CanvasFontMetrics render ready a w).2)
      = ((CanvasFontMetrics render ready a w).1, (CanvasFontMetrics render ready a w).2)
    ∧ ((CanvasFontMetrics render ready a w).2).constructions = w.constructions + 1 := by
  obtain ⟨m, hm⟩ := hok
  obtain ⟨h1, h2⟩ := successShape render ready a w m hmiss hm
  refine ⟨?_, h2⟩
  rw [cacheHit render ready a _ m h1, hm]

/-- Witness for the amended claim C1 at a concrete input. -/
theorem factory_sequential_cache_idempotent_witness :
    CanvasFontMetrics constRender readyOk raceArgs
        ((CanvasFontMetrics constRender readyOk raceArgs emptyWorld).2)
      = ((CanvasFontMetrics constRender readyOk raceArgs emptyWorld).1,
         (CanvasFontMetrics constRender readyOk raceArgs emptyWorld).2)
    ∧ ((CanvasFontMetrics constRender readyOk raceArgs emptyWorld).2).constructions
        = emptyWorld.constructions + 1 :=
  factory_sequential_cache_idempotent constRender readyOk raceArgs emptyWorld rfl ⟨_, rfl⟩

/-- Claim C2: the backup-face registration is claimed idempotent, but the
source guard reads the length property of the number returned by indexOf,
which is undefined, and the comparison with -1 is therefore always false:
the function appends a new style element and registry entry on every
call, including the third conjunct where two factory runs at the same
(weight, style) each register the face again. -/
theorem insertblankFont_registers_on_every_call :
    (insertblankFont "400" "normal" (insertblankFont "400" "normal" emptyWorld)).styleEls = 2
    ∧ (insertblankFont "400" "normal"
        (insertblankFont "400" "normal" emptyWorld)).insertedBlankFonts
        = ["400normal", "400normal"]
    ∧ ((CanvasFontMetrics constRender readyOk { fontFamily := "B" }
          (CanvasFontMetrics constRender readyOk { fontFamily := "A" } emptyWorld).2).2).styleEls
        = 2 := by
  exact ⟨rfl, rfl, rfl⟩

/-- Claim C3: the options merge is claimed to be a one-level deep merge
for chars, but the source spreads defaultOptions over the computed chars
merge and then spreads the caller options over that, so a caller-supplied
partial chars object replaces the default chars wholesale: the unsupplied
baseline anchor is lost (undefined), where the documented merge would
have kept the default n. -/
theorem mergedOptions_chars_clobbered :
    (mergedOptions callerOptions).chars = some callerChars
    ∧ callerChars.baseline = none
    ∧ (specMergedOptions callerOptions).chars = some { defaultChars with capHeight := some [88] }
    ∧ (mergedOptions callerOptions).chars ≠ (specMergedOptions callerOptions).chars := by
  refine ⟨rfl, rfl, rfl, by decide⟩

/-- Claim C4, counterexample: on a surface whose raw ascent bound is
undefined, the reported capHeight-style anchor metric is NaN, not the
falsy raw value passed through unchanged — measureTop divides
unconditionally instead of applying the zero-passthrough rule. -/
theorem measureTop_undefined_raw_gives_nan :
    (undefAscentCtx [83]).actualBoundingBoxAscent = JSVal.undef
    ∧ measureTop undefAscentCtx [83] 16 = JSVal.nan
    ∧ JSVal.nan ≠ JSVal.undef := ⟨rfl, rfl, by decide⟩

/-- Claim C4, amended: every field of measureText follows the
divide-by-fontSize-except-falsy-passthrough rule; the anchor metrics
divide the raw bound by fontSize unconditionally, which coincides with
the rule whenever the raw bound is a number (a zero raw still yields
zero), but an undefined raw bound yields NaN instead of passing
through. -/
theorem normalization_division_law (ctx : Surface) (string : JString) (fontSize : ℚ) :
    (∀ k v, (k, v) ∈ measurementEntries (ctx string) →
       (truthy v = true → (k, jsDiv v fontSize) ∈ metricsMeasureText ctx fontSize string)
       ∧ (truthy v = false → (k, v) ∈ metricsMeasureText ctx fontSize string))
    ∧ measureTop ctx string fontSize = jsDiv (ctx string).actualBoundingBoxAscent fontSize
    ∧ measureBottom ctx string fontSize = jsDiv (ctx string).actualBoundingBoxDescent fontSize
    ∧ ((ctx string).actualBoundingBoxAscent = JSVal.num 0 →
        measureTop ctx string fontSize = JSVal.num 0)
    ∧ ((ctx string).actualBoundingBoxDescent = JSVal.num 0 →
        measureBottom ctx string fontSize = JSVal.num 0) := by
  refine ⟨?_, rfl, rfl, ?_, ?_⟩
  · intro k v hkv
    constructor
    · intro ht
      simp only [metricsMeasureText, normalize, List.mem_map]
      exact ⟨(k, v), hkv, by simp [ht]⟩
    · intro hf
      simp only [metricsMeasureText, normalize, List.mem_map]
      exact ⟨(k, v), hkv, by simp [hf]⟩
  · intro h; simp [measureTop, jsDiv, h, zero_div]
  · intro h; simp [measureBottom, jsDiv, h, zero_div]

/-- Witness for the amended claim C4 at a concrete surface: the truthy
width field is divided, the undefined ascent raw is exercised through the
anchor-metric clause, and the zero descent raw yields zero. -/
theorem normalization_division_law_witness :
    ("width", jsDiv (JSVal.num 1) 16) ∈ metricsMeasureText undefAscentCtx 16 [83]
    ∧ measureTop undefAscentCtx [83] 16 = jsDiv JSVal.undef 16
    ∧ measureBottom undefAscentCtx [83] 16 = JSVal.num 0 := by
  obtain ⟨hfields, htop, hbot, hz1, hz2⟩ := normalization_division_law undefAscentCtx [83] 16
  refine ⟨(hfields "width" (JSVal.num 1) (by simp [measurementEntries, undefAscentCtx])).1
      (by simp [truthy]), htop, hz2 rfl⟩

/-- Claim C5, counterexample: on a surface where the rendered width of X
is zero, the cached value is falsy, so the presence check fails on the
repeat call and the underlying surface measurement runs a second time —
refuting the claim that the stored value is returned unconditionally and
the measurement is invoked only once per string. -/
theorem measureWidth_zero_width_measures_twice :
    (measureWidth zeroWidthCtx 16 [88] ⟨[], 0⟩).2.calls = 1
    ∧ ((measureWidth zeroWidthCtx 16 [88]
        (measureWidth zeroWidthCtx 16 [88] ⟨[], 0⟩).2).2).calls = 2 := by
  constructor <;> simp [measureWidth, lookupWidth, truthy, zeroWidthCtx, jsDiv, zero_div]

/-- Claim C5, amended: two calls with the same string always return the
same value; when the first returned value is truthy (a nonzero width) the
repeat call is a pure cache hit that leaves the state — and hence the
surface invocation count — unchanged; and a call that finds a falsy
cached value computes the rendered width divided by fontSize, stores it
and counts one surface invocation.  A zero (falsy) width is recomputed on
every call, see the counterexample. -/
theorem measureWidth_memoization_truthy
    (ctx : Surface) (fontSize : ℚ) (string : JString) (st : WidthState) :
    ((measureWidth ctx fontSize string st).1
       = (measureWidth ctx fontSize string (measureWidth ctx fontSize string st).2).1)
    ∧ (truthy (measureWidth ctx fontSize string st).1 = true →
        (measureWidth ctx fontSize string (measureWidth ctx fontSize string st).2).2
          = (measureWidth ctx fontSize string st).2)
    ∧ (truthy (lookupWidth st.widths string) = false →
        (measureWidth ctx fontSize string st).1 = jsDiv (ctx string).width fontSize
        ∧ (measureWidth ctx fontSize string st).2.calls = st.calls + 1) := by
  by_cases h : truthy (lookupWidth st.widths string) = true
  · simp [measureWidth, h]
  · have h' : truthy (lookupWidth st.widths string) = false := by simpa using h
    by_cases hv : truthy (jsDiv (ctx string).width fontSize) = true
    · simp [measureWidth, h', lookupWidth, hv]
    · have hv' : truthy (jsDiv (ctx string).width fontSize) = false := by simpa using hv
      simp [measureWidth, h', lookupWidth, hv']

/-- Witness for the amended claim C5 on a surface with a truthy width:
the two calls agree, the repeat call leaves the state unchanged, and the
first call computed width divided by fontSize with one invocation. -/
theorem measureWidth_memoization_truthy_witness :
    ((measureWidth oneCtx 1 [88] ⟨[], 0⟩).1
       = (measureWidth oneCtx 1 [88] (measureWidth oneCtx 1 [88] ⟨[], 0⟩).2).1)
    ∧ (measureWidth oneCtx 1 [88] (measureWidth oneCtx 1 [88] ⟨[], 0⟩).2).2
        = (measureWidth oneCtx 1 [88] ⟨[], 0⟩).2
    ∧ (measureWidth oneCtx 1 [88] ⟨[], 0⟩).1 = jsDiv (oneCtx [88]).width 1
    ∧ (measureWidth oneCtx 1 [88] ⟨[], 0⟩).2.calls = 0 + 1 := by
  obtain ⟨h1, h2, h3⟩ := measureWidth_memoization_truthy oneCtx 1 [88] ⟨[], 0⟩
  have hf : truthy (lookupWidth (WidthState.mk [] 0).widths [88]) = false := rfl
  refine ⟨h1, h2 ?_, (h3 hf).1, (h3 hf).2⟩
  simp [measureWidth, lookupWidth, truthy, oneCtx, jsDiv]

/-- Claim C6: when either readiness wait rejects, the factory rejects
with that load error verbatim and writes no entry to the instance cache
under the identity key, so a later retry starts from an unchanged
cache. -/
theorem load_failure_writes_no_cache_entry
    (render : Render) (ready : Ready) (a : Args) (w : World) (e : String)
    (hmiss : lookupInst w.instances (getId (resolve a)) = none)
    (herr : ready (resolve a).fontFamily (resolve a).fontWeight (resolve a).fontStyle
              = Except.error e
          ∨ (ready (resolve a).fontFamily (resolve a).fontWeight (resolve a).fontStyle
               = Except.ok ()
             ∧ ready blankFontFamily (resolve a).fontWeight (resolve a).fontStyle
               = Except.error e)) :
    (CanvasFontMetrics render ready a w).1 = Except.error (JsErr.fontLoad e)
    ∧ ((CanvasFontMetrics render ready a w).2).instances = w.instances := by
  rcases herr with h1 | ⟨h1, h2⟩
  · simp [CanvasFontMetrics, phase1, hmiss, resume, afterWaits, h1, insertblankFont,
      numberLength, jsGT]
  · simp [CanvasFontMetrics, phase1, hmiss, resume, afterWaits, h1, h2, insertblankFont,
      numberLength, jsGT]

/-- Witness for claim C6: a timing-out loading signal makes the factory
reject with the timeout and leaves the cache empty. -/
theorem load_failure_writes_no_cache_entry_witness :
    (CanvasFontMetrics constRender readyFail raceArgs emptyWorld).1
      = Except.error (JsErr.fontLoad "FontLoadTimeout")
    ∧ ((CanvasFontMetrics constRender readyFail raceArgs emptyWorld).2).instances
        = emptyWorld.instances :=
  load_failure_writes_no_cache_entry constRender readyFail raceArgs emptyWorld
    "FontLoadTimeout" rfl (Or.inl rfl)

/-- Claim C7: the detected ligatures are exactly the names in
ligatureCodes whose single probe character measures wider than zero, and
the result is always a sublist of the fixed order ff, fi, fl, st. -/
theorem detectLigatures_subset_ordered (ctx : Surface) :
    (∀ n : String, n ∈ detectLigatures ctx ↔
       ∃ p, p ∈ ligatureCodes ∧ p.1 = n ∧ jsGT (ctx (fromCharCode p.2)).width 0 = true)
    ∧ List.Sublist (detectLigatures ctx) ["ff", "fi", "fl", "st"] := by
  constructor
  · intro n
    simp only [detectLigatures, List.mem_map, List.mem_filter]
    constructor
    · rintro ⟨p, ⟨hp, hw⟩, hn⟩
      exact ⟨p, hp, hn, hw⟩
    · rintro ⟨p, hp, hn, hw⟩
      exact ⟨p, ⟨hp, hw⟩, hn⟩
  · have h1 := List.filter_sublist
      (p := fun p => jsGT (ctx (fromCharCode p.2)).width 0) ligatureCodes
    have h2 := List.Sublist.map Prod.fst h1
    simpa [detectLigatures, ligatureCodes] using h2

/-- Witness for claim C7 on a surface supporting exactly fi and st: fi is
reported, and the report respects the fixed order. -/
theorem detectLigatures_subset_ordered_witness :
    "fi" ∈ detectLigatures fiStCtx
    ∧ List.Sublist (detectLigatures fiStCtx) ["ff", "fi", "fl", "st"] :=
  ⟨((detectLigatures_subset_ordered fiStCtx).1 "fi").mpr
      ⟨("fi", 64257), by simp [ligatureCodes], rfl, by simp [fiStCtx, fromCharCode, jsGT]⟩,
   (detectLigatures_subset_ordered fiStCtx).2⟩

/-- Claim C8: the glyph scan reports exactly the one-character strings of
the code points 0 to 65535 whose measured width is greater than zero, in
ascending code-point order (the reported strings are the image of an
increasing list of code points bounded by 65535), and a surface reporting
no positive width yields the empty sequence. -/
theorem detectGlyphs_scan (ctx : Surface) :
    (∀ s : JString, s ∈ detectGlyphs ctx ↔
       ∃ i, i ≤ 65535 ∧ s = [i] ∧ jsGT (ctx [i]).width 0 = true)
    ∧ (∃ codes : List Nat, List.Pairwise (· < ·) codes ∧ (∀ c ∈ codes, c ≤ 65535)
        ∧ detectGlyphs ctx = codes.map (fun i => [i]))
    ∧ ((∀ i, i ≤ 65535 → jsGT (ctx [i]).width 0 = false) → detectGlyphs ctx = []) := by
  refine ⟨?_, ?_, ?_⟩
  · intro s
    simp only [detectGlyphs, List.mem_map, List.mem_filter, List.mem_range]
    constructor
    · rintro ⟨i, ⟨hi, hw⟩, hs⟩
      rw [fromCharCode_small hi] at hs hw
      exact ⟨i, Nat.lt_succ_iff.mp hi, hs.symm, hw⟩
    · rintro ⟨i, hi, hs, hw⟩
      have hi' : i < 65536 := Nat.lt_succ_iff.mpr hi
      refine ⟨i, ⟨hi', ?_⟩, ?_⟩
      · rw [fromCharCode_small hi']; exact hw
      · rw [fromCharCode_small hi']; exact hs.symm
  · refine ⟨(List.range 65536).filter (fun i => jsGT (ctx (fromCharCode i)).width 0),
      ?_, ?_, ?_⟩
    · exact List.Pairwise.sublist (List.filter_sublist _) (List.pairwise_lt_range _)
    · intro c hc
      have := List.mem_range.mp (List.mem_of_mem_filter hc)
      omega
    · unfold detectGlyphs
      apply List.map_congr_left
      intro i hi
      exact fromCharCode_small (List.mem_range.mp (List.mem_of_mem_filter hi))
  · intro hall
    unfold detectGlyphs
    have hnil : (List.range 65536).filter (fun i => jsGT (ctx (fromCharCode i)).width 0)
        = [] := by
      rw [List.filter_eq_nil_iff]
      intro a ha
      have ha' := List.mem_range.mp ha
      rw [fromCharCode_small ha']
      simp [hall a (Nat.lt_succ_iff.mp ha')]
    rw [hnil]
    rfl

/-- Witness for claim C8: the all-zero surface reports no glyphs. -/
theorem detectGlyphs_scan_witness : detectGlyphs zeroWidthCtx = [] :=
  (detectGlyphs_scan zeroWidthCtx).2.2 (fun _ _ => rfl)

/-- Claim C9: the identity key is the unseparated concatenation of
family, weight, style and serialized options, and it is not injective:
the distinct identities (Arial4, weight 00) and (Arial, weight 400) share
one key, so once the first identity has a cached instance, a request for
the second identity returns that same instance without construction. -/
theorem getId_collision_shares_instance :
    getId identityA = getId identityB
    ∧ identityA ≠ identityB
    ∧ resolve argsB = identityB
    ∧ ∀ (render : Render) (ready : Ready) (w : World) (m : Metrics),
        lookupInst w.instances (getId identityA) = some m →
        CanvasFontMetrics render ready argsB w = (Except.ok m, w) := by
  refine ⟨rfl, by decide, rfl, ?_⟩
  intro render ready w m h
  have h' : lookupInst w.instances (getId (resolve argsB)) = some m := h
  simp [CanvasFontMetrics, phase1, h', resume]

/-- Witness for claim C9: a cache populated under the Arial4-00 key
serves the Arial-400 request with the stored instance. -/
theorem getId_collision_shares_instance_witness :
    CanvasFontMetrics constRender readyOk argsB cachedWorld
      = (Except.ok dummyMetrics, cachedWorld) :=
  getId_collision_shares_instance.2.2.2 constRender readyOk cachedWorld dummyMetrics
    (by simp [cachedWorld, emptyWorld, lookupInst])

/-- Claim C10: with the options argument explicitly null, a cache-miss
factory call passes both readiness waits and then throws a TypeError in
the options merge (reading the chars property of null); the default empty
options object is substituted only when the argument is omitted, in which
case the call succeeds. -/
theorem null_options_typeError
    (render : Render) (ready : Ready) (fam : String) (w : World)
    (hmiss : lookupInst w.instances (getId (resolve (nullArgs fam))) = none)
    (hmiss2 : lookupInst w.instances (getId (resolve (undefArgs fam))) = none)
    (h1 : ready fam (FontWeight.numW 400) "normal" = Except.ok ())
    (h2 : ready blankFontFamily (FontWeight.numW 400) "normal" = Except.ok ()) :
    (CanvasFontMetrics render ready (nullArgs fam) w).1 = Except.error JsErr.typeError
    ∧ ((CanvasFontMetrics render ready (undefArgs fam) w).1).isOk = true := by
  simp only [nullArgs, undefArgs, resolve, Option.getD_none] at hmiss hmiss2
  constructor
  · simp [CanvasFontMetrics, phase1, resume, afterWaits, nullArgs, resolve, hmiss, h1, h2,
      mergeStep]
  · simp [CanvasFontMetrics, phase1, resume, afterWaits, undefArgs, resolve, hmiss2, h1, h2,
      mergeStep, buildMetrics, Except.isOk, Except.toBool]

/-- Witness for claim C10 at a concrete family on an empty cache. -/
theorem null_options_typeError_witness :
    (CanvasFontMetrics constRender readyOk (nullArgs "Helvetica") emptyWorld).1
      = Except.error JsErr.typeError
    ∧ ((CanvasFontMetrics constRender readyOk (undefArgs "Helvetica") emptyWorld).1).isOk
        = true :=
  null_options_typeError constRender readyOk "Helvetica" emptyWorld rfl rfl rfl rfl

end CFM
